import Mathlib

/-!
Verification of the safe-wrapper layer of `whisper-rs` (`src/whisper_ctx.rs`).

The wrapper delegates all inference work to an opaque native library reached
through a fixed FFI boundary.  We embed that boundary as an abstract
`NativeModel` record: each native entry point the wrapper calls becomes a field
(a pure function), so theorems about the wrapper quantify over every possible
native behaviour.  Rust strings (`&str`, `CString`, `CStr`) are embedded as
their byte lists (`List UInt8`); `whisper_token` (a C `int`) is embedded as
`Int`; Rust `Result<T, WhisperError>` becomes `Except WhisperError T`.
-/

/-- Modelled from the spec: the crate's error type lives in `error.rs`, which is
not under `src/`.  The constructors `InitError`, `InvalidText` and
`NullPointer` are the variant names visibly used in `src/whisper_ctx.rs`; the
spec's taxonomy calls them `InitializationError`, `TokenizationOverflow` and
`LookupFailed` respectively.  The targets of the two `?`-operator conversions
(`CString::new`'s nul-byte error and `CStr::to_str`'s UTF-8 error) are not in
`src/` and are modelled from the spec's taxonomy as `InvalidArgument` and
`EncodingError`. -/
inductive WhisperError where
  | InvalidArgument
  | InitError
  | InvalidText
  | NullPointer
  | EncodingError
  deriving DecidableEq, Repr

/-- Abstract model of the native FFI boundary for one loaded whisper model.
`tokenizeRet` is the `c_int` returned by `whisper_tokenize`; `tokenizeSlot`
gives the token the native call wrote into buffer slot `i` (for the given text
and `n_max_tokens`).  `tokenToStr` models `whisper_token_to_str`: `none` is a
null pointer, `some bytes` the nul-terminated string's bytes (without the
terminator).  The remaining fields model the integer/boolean accessor
catalogue, which the native contract declares read-only and side-effect free,
hence pure functions of the loaded model. -/
structure NativeModel where
  tokenizeRet : List UInt8 → Nat → Int
  tokenizeSlot : List UInt8 → Nat → Nat → Int
  tokenToStr : Int → Option (List UInt8)
  modelTypeStr : Option (List UInt8)
  nVocab : Int
  nTextCtx : Int
  nAudioCtx : Int
  isMultilingualRaw : Int
  modelNVocab : Int
  modelNAudioCtx : Int
  modelNAudioState : Int
  modelNAudioHead : Int
  modelNAudioLayer : Int
  modelNTextCtx : Int
  modelNTextState : Int
  modelNTextHead : Int
  modelNTextLayer : Int
  modelNMels : Int
  modelFtype : Int
  modelType : Int
  tokenEot : Int
  tokenSot : Int
  tokenPrev : Int
  tokenSolm : Int
  tokenNot : Int
  tokenBeg : Int
  tokenLang : Int → Int

/-- The wrapper struct `WhisperContext { ctx: *mut whisper_context }`: the
opaque native pointer is embedded as the abstract model it points to. -/
structure WhisperContext where
  ctx : NativeModel

/-- Rust's `x as usize` cast applied to a `c_int` value (64-bit `usize`):
two's-complement wrap into `[0, 2^64)`. -/
def usizeOfInt (i : Int) : Nat :=
  (i % (2 ^ 64 : Int)).toNat

/-- `CString::new(bytes)`: fails iff the bytes contain an interior nul; the
`?` conversion of that failure is modelled (from the spec) as
`InvalidArgument`. -/
def cstringNew (bytes : List UInt8) : Except WhisperError (List UInt8) :=
  if bytes.contains 0 then .error .InvalidArgument else .ok bytes

/-- Is `c` a UTF-8 continuation byte (`0x80..=0xBF`)? -/
def utf8Cont (c : UInt8) : Bool :=
  0x80 ≤ c && c ≤ 0xBF

/-- Admissible second byte of a three-byte UTF-8 sequence with lead `b`
(excludes overlong forms for `0xE0` and surrogates for `0xED`). -/
def utf8Second3 (b c : UInt8) : Bool :=
  if b = 0xE0 then 0xA0 ≤ c && c ≤ 0xBF
  else if b = 0xED then 0x80 ≤ c && c ≤ 0x9F
  else utf8Cont c

/-- Admissible second byte of a four-byte UTF-8 sequence with lead `b`
(excludes overlong forms for `0xF0` and code points above `0x10FFFF` for
`0xF4`). -/
def utf8Second4 (b c : UInt8) : Bool :=
  if b = 0xF0 then 0x90 ≤ c && c ≤ 0xBF
  else if b = 0xF4 then 0x80 ≤ c && c ≤ 0x8F
  else utf8Cont c

/-- UTF-8 validity of a byte sequence, as checked by Rust's
`str::from_utf8` / `CStr::to_str` (rejecting overlong encodings, surrogate
code points and values above `0x10FFFF`). -/
def isValidUtf8 : List UInt8 → Bool
  | [] => true
  | b :: rest =>
    if b ≤ 0x7F then isValidUtf8 rest
    else if 0xC2 ≤ b && b ≤ 0xDF then
      match rest with
      | c1 :: rest2 => utf8Cont c1 && isValidUtf8 rest2
      | [] => false
    else if 0xE0 ≤ b && b ≤ 0xEF then
      match rest with
      | c1 :: c2 :: rest3 => utf8Second3 b c1 && utf8Cont c2 && isValidUtf8 rest3
      | _ => false
    else if 0xF0 ≤ b && b ≤ 0xF4 then
      match rest with
      | c1 :: c2 :: c3 :: rest4 =>
        utf8Second4 b c1 && utf8Cont c2 && utf8Cont c3 && isValidUtf8 rest4
      | _ => false
    else false

/-- A Rust owned `String` (as opposed to a borrowed `&str`/`&CStr`, which we
embed as a bare byte list): produced by copying bytes out of native memory via
`.to_string()`. -/
structure OwnedString where
  bytes : List UInt8
  deriving DecidableEq, Repr

/-- The token list `WhisperContext::tokenize` hands back on success: the first
`ret as usize` buffer slots (`tokens.set_len(ret as usize)`), read in order. -/
def tokenizeTokens (m : NativeModel) (text : List UInt8) (maxTokens : Nat) : List Int :=
  (List.range (usizeOfInt (m.tokenizeRet text maxTokens))).map
    (m.tokenizeSlot text maxTokens)

/-- Embedding of `WhisperContext::new` (lines 26-34): `CString::new(path)?`
first, then the native loader; a null context becomes `InitError`.  The native
loader `whisper_init_from_file_no_state` is abstract, passed as `loader`. -/
def whisperContextNew (loader : List UInt8 → Option NativeModel) (path : List UInt8) :
    Except WhisperError WhisperContext :=
  match cstringNew path with
  | .error e => .error e
  | .ok pathC =>
    match loader pathC with
    | none => .error .InitError
    | some m => .ok ⟨m⟩

/-- Embedding of `WhisperContext::tokenize` (lines 86-111):
`CString::new(text)?`, one native `whisper_tokenize` call, `InvalidText` iff
the return value is `-1`, otherwise `set_len(ret as usize)` on the buffer. -/
def WhisperContext.tokenize (self : WhisperContext) (text : List UInt8) (maxTokens : Nat) :
    Except WhisperError (List Int) :=
  match cstringNew text with
  | .error e => .error e
  | .ok textC =>
    let ret := self.ctx.tokenizeRet textC maxTokens
    if ret = -1 then .error .InvalidText
    else .ok (tokenizeTokens self.ctx textC maxTokens)

/-- Embedding of `WhisperContext::token_to_cstr` (lines 329-335): null-check
the native pointer, else borrow the `CStr` bytes. -/
def WhisperContext.token_to_cstr (self : WhisperContext) (tokenId : Int) :
    Except WhisperError (List UInt8) :=
  match self.ctx.tokenToStr tokenId with
  | none => .error .NullPointer
  | some bytes => .ok bytes

/-- Embedding of `WhisperContext::token_to_str` (lines 313-317):
`token_to_cstr` then `CStr::to_str`, whose UTF-8 failure is modelled (from the
spec) as `EncodingError`. -/
def WhisperContext.token_to_str (self : WhisperContext) (tokenId : Int) :
    Except WhisperError (List UInt8) :=
  match self.token_to_cstr tokenId with
  | .error e => .error e
  | .ok bytes => if isValidUtf8 bytes then .ok bytes else .error .EncodingError

/-- Embedding of `WhisperContext::model_type_readable` (lines 342-350):
null-check, UTF-8 check, then `.to_string()` copies the bytes into an owned
`String` before returning. -/
def WhisperContext.model_type_readable (self : WhisperContext) :
    Except WhisperError OwnedString :=
  match self.ctx.modelTypeStr with
  | none => .error .NullPointer
  | some bytes =>
    if isValidUtf8 bytes then .ok ⟨bytes⟩ else .error .EncodingError

/-- Embedding of the accessor `WhisperContext::n_vocab` (lines 121-123). -/
def WhisperContext.n_vocab (self : WhisperContext) : Int := self.ctx.nVocab

/-- Embedding of `WhisperContext::n_text_ctx` (lines 133-135). -/
def WhisperContext.n_text_ctx (self : WhisperContext) : Int := self.ctx.nTextCtx

/-- Embedding of `WhisperContext::n_audio_ctx` (lines 145-147). -/
def WhisperContext.n_audio_ctx (self : WhisperContext) : Int := self.ctx.nAudioCtx

/-- Embedding of `WhisperContext::is_multilingual` (lines 154-156). -/
def WhisperContext.is_multilingual (self : WhisperContext) : Bool :=
  self.ctx.isMultilingualRaw != 0

/-- Embedding of `WhisperContext::model_n_vocab` (lines 166-168). -/
def WhisperContext.model_n_vocab (self : WhisperContext) : Int := self.ctx.modelNVocab

/-- Embedding of `WhisperContext::model_n_audio_ctx` (lines 178-180). -/
def WhisperContext.model_n_audio_ctx (self : WhisperContext) : Int := self.ctx.modelNAudioCtx

/-- Embedding of `WhisperContext::model_n_audio_state` (lines 190-192). -/
def WhisperContext.model_n_audio_state (self : WhisperContext) : Int := self.ctx.modelNAudioState

/-- Embedding of `WhisperContext::model_n_audio_head` (lines 202-204). -/
def WhisperContext.model_n_audio_head (self : WhisperContext) : Int := self.ctx.modelNAudioHead

/-- Embedding of `WhisperContext::model_n_audio_layer` (lines 214-216). -/
def WhisperContext.model_n_audio_layer (self : WhisperContext) : Int := self.ctx.modelNAudioLayer

/-- Embedding of `WhisperContext::model_n_text_ctx` (lines 226-228). -/
def WhisperContext.model_n_text_ctx (self : WhisperContext) : Int := self.ctx.modelNTextCtx

/-- Embedding of `WhisperContext::model_n_text_state` (lines 238-240). -/
def WhisperContext.model_n_text_state (self : WhisperContext) : Int := self.ctx.modelNTextState

/-- Embedding of `WhisperContext::model_n_text_head` (lines 250-252). -/
def WhisperContext.model_n_text_head (self : WhisperContext) : Int := self.ctx.modelNTextHead

/-- Embedding of `WhisperContext::model_n_text_layer` (lines 262-264). -/
def WhisperContext.model_n_text_layer (self : WhisperContext) : Int := self.ctx.modelNTextLayer

/-- Embedding of `WhisperContext::model_n_mels` (lines 274-276). -/
def WhisperContext.model_n_mels (self : WhisperContext) : Int := self.ctx.modelNMels

/-- Embedding of `WhisperContext::model_ftype` (lines 286-288). -/
def WhisperContext.model_ftype (self : WhisperContext) : Int := self.ctx.modelFtype

/-- Embedding of `WhisperContext::model_type` (lines 298-300). -/
def WhisperContext.model_type (self : WhisperContext) : Int := self.ctx.modelType

/-- Embedding of `WhisperContext::token_eot` (lines 357-359). -/
def WhisperContext.token_eot (self : WhisperContext) : Int := self.ctx.tokenEot

/-- Embedding of `WhisperContext::token_sot` (lines 366-368). -/
def WhisperContext.token_sot (self : WhisperContext) : Int := self.ctx.tokenSot

/-- Embedding of `WhisperContext::token_prev` (lines 375-377). -/
def WhisperContext.token_prev (self : WhisperContext) : Int := self.ctx.tokenPrev

/-- Embedding of `WhisperContext::token_solm` (lines 384-386). -/
def WhisperContext.token_solm (self : WhisperContext) : Int := self.ctx.tokenSolm

/-- Embedding of `WhisperContext::token_not` (lines 393-395). -/
def WhisperContext.token_not (self : WhisperContext) : Int := self.ctx.tokenNot

/-- Embedding of `WhisperContext::token_beg` (lines 402-404). -/
def WhisperContext.token_beg (self : WhisperContext) : Int := self.ctx.tokenBeg

/-- Embedding of `WhisperContext::token_lang` (lines 414-416). -/
def WhisperContext.token_lang (self : WhisperContext) (langId : Int) : Int :=
  self.ctx.tokenLang langId

/-- Joining native token strings: `none` as soon as one token has no string
(a vocabulary gap), otherwise the concatenation of their bytes. -/
def nativeJoin (m : NativeModel) : List Int → Option (List UInt8)
  | [] => some []
  | t :: ts =>
    match m.tokenToStr t with
    | none => none
    | some s =>
      match nativeJoin m ts with
      | none => none
      | some rest => some (s ++ rest)

/-- The round-trip test's join (lines 463-467): `token_to_str` on each token in
order, failing if any lookup fails, concatenating the results. -/
def joinTokenStrs (self : WhisperContext) : List Int → Except WhisperError (List UInt8)
  | [] => .ok []
  | t :: ts =>
    match self.token_to_str t with
    | .error e => .error e
    | .ok s =>
      match joinTokenStrs self ts with
      | .error e => .error e
      | .ok rest => .ok (s ++ rest)

/-- Modelled from the spec: `whisper_state.rs` (the Run State Handle type
returned by `WhisperContext::create_state`, lines 66-74) is not under `src/`.
Per the spec, the wrapper's lifetime system admits only these handle events:
context creation, run-state derivation from a live context, run-state
destruction, and context destruction only once no derived run state is live. -/
inductive HandleEvent where
  | createCtx (c : Nat)
  | createState (s : Nat) (c : Nat)
  | destroyState (s : Nat)
  | destroyCtx (c : Nat)

/-- Modelled from the spec: the set of live handles at one moment — live
Context Handles, and live Run State Handles paired with the context each was
derived from (the non-owning back-reference of §3). -/
structure HandleHeap where
  liveCtxs : List Nat
  liveStates : List (Nat × Nat)

/-- Modelled from the spec: the transitions the wrapper's ownership system
permits.  `createState` requires its context to be live (it is derived via
`WhisperContext::create_state` from a live `&self`); `destroyCtx` carries the
side condition that no live run state still references the context — the
spec's compile/construction-time rejection of the wrong destruction order. -/
inductive HandleStep : HandleHeap → HandleEvent → HandleHeap → Prop where
  | createCtx {h : HandleHeap} {c : Nat} (hfresh : c ∉ h.liveCtxs) :
      HandleStep h (.createCtx c) ⟨c :: h.liveCtxs, h.liveStates⟩
  | createState {h : HandleHeap} {s c : Nat} (hc : c ∈ h.liveCtxs)
      (hfresh : ∀ c', (s, c') ∉ h.liveStates) :
      HandleStep h (.createState s c) ⟨h.liveCtxs, (s, c) :: h.liveStates⟩
  | destroyState {h : HandleHeap} {s c : Nat} (hs : (s, c) ∈ h.liveStates) :
      HandleStep h (.destroyState s) ⟨h.liveCtxs, h.liveStates.filter (fun p => p.1 != s)⟩
  | destroyCtx {h : HandleHeap} {c : Nat} (hc : c ∈ h.liveCtxs)
      (hnostate : ∀ p ∈ h.liveStates, p.2 ≠ c) :
      HandleStep h (.destroyCtx c) ⟨h.liveCtxs.filter (fun c' => c' != c), h.liveStates⟩

/-- Heaps reachable from the empty heap through permitted handle events. -/
inductive ReachableHeap : HandleHeap → Prop where
  | init : ReachableHeap ⟨[], []⟩
  | step {h h' : HandleHeap} {e : HandleEvent} :
      ReachableHeap h → HandleStep h e h' → ReachableHeap h'

/-- Identity byte-level native model used to instantiate theorems on concrete
inputs: tokenizing yields one token per input byte (failing with the `-1`
sentinel when `max_tokens` is too small), and each token below 256 prints as
its single byte. -/
def demoModel : NativeModel where
  tokenizeRet := fun text maxTokens =>
    if text.length ≤ maxTokens then Int.ofNat text.length else -1
  tokenizeSlot := fun text _ i => Int.ofNat (text.getD i 0).toNat
  tokenToStr := fun t => if 0 ≤ t && t < 256 then some [UInt8.ofNat t.toNat] else none
  modelTypeStr := some [116, 105, 110, 121]
  nVocab := 51864
  nTextCtx := 448
  nAudioCtx := 1500
  isMultilingualRaw := 0
  modelNVocab := 51864
  modelNAudioCtx := 1500
  modelNAudioState := 384
  modelNAudioHead := 6
  modelNAudioLayer := 4
  modelNTextCtx := 448
  modelNTextState := 384
  modelNTextHead := 6
  modelNTextLayer := 4
  modelNMels := 80
  modelFtype := 1
  modelType := 1
  tokenEot := 50256
  tokenSot := 50257
  tokenPrev := 50360
  tokenSolm := 50361
  tokenNot := 50362
  tokenBeg := 50363
  tokenLang := fun lang => 50258 + lang

/-- A second native model that disagrees with `demoModel` everywhere the
tokenizer is concerned: used to witness that rejected inputs never reach the
native layer. -/
def altModel : NativeModel :=
  { demoModel with
    tokenizeRet := fun _ _ => 7
    tokenizeSlot := fun _ _ _ => 99 }

/-- A native model whose token 2 prints as the invalid UTF-8 byte `0xFF` and
whose other lookups return null; used to witness the encoding-error branch. -/
def badTokenModel : NativeModel :=
  { demoModel with
    tokenToStr := fun t => if t = 2 then some [255] else none
    modelTypeStr := none }

/-- A model agreeing with `demoModel` on the tokenizer's return value and on
every buffer slot below the reported count, but different beyond it; used to
witness that the wrapper never reads past the reported count. -/
def trailingGarbageModel : NativeModel :=
  { demoModel with
    tokenizeSlot := fun text mt i =>
      if i < usizeOfInt (demoModel.tokenizeRet text mt) then
        demoModel.tokenizeSlot text mt i
      else 424242 }

/-- A native loader that fails on every path, as on a nonexistent model file. -/
def noneLoader : List UInt8 → Option NativeModel := fun _ => none

/-- A native loader that always succeeds, returning the demo model. -/
def demoLoader : List UInt8 → Option NativeModel := fun _ => some demoModel

/-- Concrete lifetime heap after creating context 1 and deriving run state 2. -/
def demoHeap : HandleHeap := ⟨[1], [(2, 1)]⟩

/-- Unfolding of `tokenize` once the nul-byte check has passed. -/
theorem tokenize_no_nul_eq (m : NativeModel) (text : List UInt8) (maxTokens : Nat)
    (hnonul : text.contains 0 = false) :
    WhisperContext.tokenize ⟨m⟩ text maxTokens =
      if m.tokenizeRet text maxTokens = -1 then .error .InvalidText
      else .ok (tokenizeTokens m text maxTokens) := by
  have h0 : (0 : UInt8) ∉ text := by simpa using hnonul
  simp [WhisperContext.tokenize, cstringNew, h0]

/-- C3: for every input text containing an embedded null byte, `tokenize`
returns the `InvalidArgument` error (the code's `CString::new` nul-byte
rejection) and performs no call into the native tokenizer: its result does not
depend on the native model at all. -/
theorem tokenize_rejects_nul_before_native_call
    (m mSecond : NativeModel) (text : List UInt8) (maxTokens : Nat)
    (h : text.contains 0 = true) :
    WhisperContext.tokenize ⟨m⟩ text maxTokens = .error .InvalidArgument ∧
    WhisperContext.tokenize ⟨m⟩ text maxTokens =
      WhisperContext.tokenize ⟨mSecond⟩ text maxTokens := by
  have h0 : (0 : UInt8) ∈ text := by simpa using h
  constructor <;> simp [WhisperContext.tokenize, cstringNew, h0]

theorem tokenize_rejects_nul_before_native_call_witness :
    WhisperContext.tokenize ⟨demoModel⟩ [104, 0, 105] 8 = .error .InvalidArgument ∧
    WhisperContext.tokenize ⟨demoModel⟩ [104, 0, 105] 8 =
      WhisperContext.tokenize ⟨altModel⟩ [104, 0, 105] 8 :=
  tokenize_rejects_nul_before_native_call demoModel altModel [104, 0, 105] 8 (by decide)

/-- C4: whenever the native tokenizer signals its `-1` failure sentinel for
every capacity below the count required to encode the text, a `tokenize` call
with `max_tokens` below that requirement returns the `InvalidText`
(TokenizationOverflow) error, never a silently truncated sequence. -/
theorem tokenize_overflow_error
    (m : NativeModel) (text : List UInt8) (maxTokens required : Nat)
    (hnonul : text.contains 0 = false)
    (hsentinel : ∀ k, k < required → m.tokenizeRet text k = -1)
    (hlt : maxTokens < required) :
    WhisperContext.tokenize ⟨m⟩ text maxTokens = .error .InvalidText := by
  rw [tokenize_no_nul_eq m text maxTokens hnonul, if_pos (hsentinel maxTokens hlt)]

theorem tokenize_overflow_error_witness :
    WhisperContext.tokenize ⟨demoModel⟩ [65, 66] 1 = .error .InvalidText :=
  tokenize_overflow_error demoModel [65, 66] 1 2 (by decide) (by decide) (by decide)

/-- C10: for nul-free text, `tokenize` returns an error if and only if the
native return value is exactly `-1`; every other return value is treated as a
success count: the result is the first `ret as usize` buffer slots. -/
theorem tokenize_error_iff_ret_neg_one
    (m : NativeModel) (text : List UInt8) (maxTokens : Nat)
    (hnonul : text.contains 0 = false) :
    ((∃ e, WhisperContext.tokenize ⟨m⟩ text maxTokens = .error e) ↔
      m.tokenizeRet text maxTokens = -1) ∧
    (m.tokenizeRet text maxTokens ≠ -1 →
      WhisperContext.tokenize ⟨m⟩ text maxTokens =
        .ok (tokenizeTokens m text maxTokens)) := by
  rw [tokenize_no_nul_eq m text maxTokens hnonul]
  by_cases hret : m.tokenizeRet text maxTokens = -1
  · simp [hret]
  · simp [hret]

theorem tokenize_error_iff_ret_neg_one_witness :
    ((∃ e, WhisperContext.tokenize ⟨demoModel⟩ [65] 4 = .error e) ↔
      demoModel.tokenizeRet [65] 4 = -1) ∧
    (demoModel.tokenizeRet [65] 4 ≠ -1 →
      WhisperContext.tokenize ⟨demoModel⟩ [65] 4 =
        .ok (tokenizeTokens demoModel [65] 4)) :=
  tokenize_error_iff_ret_neg_one demoModel [65] 4 (by decide)

/-- C5: every successful `tokenize` call returns exactly as many tokens as the
native tokenizer reported (`ret as usize`), never the preallocated
`max_tokens` capacity; and the wrapper reads no buffer slot at or beyond that
count: any native model agreeing on the return value and on the slots below
the count produces the identical result. -/
theorem tokenize_len_eq_reported_count
    (m mAgree : NativeModel) (text : List UInt8) (maxTokens : Nat) (toks : List Int)
    (hok : WhisperContext.tokenize ⟨m⟩ text maxTokens = .ok toks)
    (hret : mAgree.tokenizeRet text maxTokens = m.tokenizeRet text maxTokens)
    (hslots : ∀ i, i < usizeOfInt (m.tokenizeRet text maxTokens) →
      mAgree.tokenizeSlot text maxTokens i = m.tokenizeSlot text maxTokens i) :
    toks.length = usizeOfInt (m.tokenizeRet text maxTokens) ∧
    WhisperContext.tokenize ⟨mAgree⟩ text maxTokens = .ok toks := by
  cases hcont : text.contains 0 with
  | true =>
    have h0 : (0 : UInt8) ∈ text := by simpa using hcont
    simp [WhisperContext.tokenize, cstringNew, h0] at hok
  | false =>
    rw [tokenize_no_nul_eq m text maxTokens hcont] at hok
    by_cases hsent : m.tokenizeRet text maxTokens = -1
    · simp [hsent] at hok
    · simp only [if_neg hsent, Except.ok.injEq] at hok
      have hmap : tokenizeTokens mAgree text maxTokens = tokenizeTokens m text maxTokens := by
        unfold tokenizeTokens
        rw [hret]
        exact List.map_congr_left fun i hi => hslots i (List.mem_range.mp hi)
      constructor
      · rw [← hok]
        simp [tokenizeTokens]
      · rw [tokenize_no_nul_eq mAgree text maxTokens hcont, hret, if_neg hsent, hmap, hok]

theorem tokenize_len_eq_reported_count_witness :
    ([65, 66, 67] : List Int).length = usizeOfInt (demoModel.tokenizeRet [65, 66, 67] 5) ∧
    WhisperContext.tokenize ⟨trailingGarbageModel⟩ [65, 66, 67] 5 = .ok [65, 66, 67] :=
  tokenize_len_eq_reported_count demoModel trailingGarbageModel [65, 66, 67] 5 [65, 66, 67]
    (by rfl) (by rfl) (by decide)

/-- C6: `WhisperContext::new` fails with `InvalidArgument` before any native
call when the path contains an embedded null byte (result independent of the
loader), and fails with `InitError` — a returned error value, not a crash —
when the native loader returns null. -/
theorem new_rejects_nul_and_maps_null_to_init_error
    (loader loaderSecond : List UInt8 → Option NativeModel) (path : List UInt8) :
    (path.contains 0 = true →
      whisperContextNew loader path = .error .InvalidArgument ∧
      whisperContextNew loader path = whisperContextNew loaderSecond path) ∧
    (path.contains 0 = false → loader path = none →
      whisperContextNew loader path = .error .InitError) := by
  refine ⟨fun h => ?_, fun h hn => ?_⟩
  · have h0 : (0 : UInt8) ∈ path := by simpa using h
    constructor <;> simp [whisperContextNew, cstringNew, h0]
  · have h0 : (0 : UInt8) ∉ path := by simpa using h
    simp [whisperContextNew, cstringNew, h0, hn]

theorem new_rejects_nul_and_maps_null_to_init_error_witness :
    whisperContextNew demoLoader [109, 0] = .error .InvalidArgument ∧
    whisperContextNew noneLoader [109] = .error .InitError :=
  ⟨((new_rejects_nul_and_maps_null_to_init_error demoLoader noneLoader [109, 0]).1
      (by decide)).1,
   (new_rejects_nul_and_maps_null_to_init_error noneLoader demoLoader [109]).2
      (by decide) rfl⟩

/-- C7: token display lookup fails with `NullPointer` (LookupFailed) exactly
when the native call returns null; the text form additionally fails with
`EncodingError` exactly when the returned bytes are not valid UTF-8; the
byte-slice form can only fail with `NullPointer`, never an encoding error. -/
theorem token_lookup_error_cases (m : NativeModel) (t : Int) :
    (m.tokenToStr t = none →
      WhisperContext.token_to_cstr ⟨m⟩ t = .error .NullPointer ∧
      WhisperContext.token_to_str ⟨m⟩ t = .error .NullPointer) ∧
    (∀ s, m.tokenToStr t = some s →
      WhisperContext.token_to_cstr ⟨m⟩ t = .ok s ∧
      (isValidUtf8 s = true → WhisperContext.token_to_str ⟨m⟩ t = .ok s) ∧
      (isValidUtf8 s = false →
        WhisperContext.token_to_str ⟨m⟩ t = .error .EncodingError)) ∧
    (∀ e, WhisperContext.token_to_cstr ⟨m⟩ t = .error e → e = .NullPointer) := by
  refine ⟨fun h => ⟨?_, ?_⟩, fun s hs => ⟨?_, fun hv => ?_, fun hv => ?_⟩, fun e he => ?_⟩
  · simp [WhisperContext.token_to_cstr, h]
  · simp [WhisperContext.token_to_str, WhisperContext.token_to_cstr, h]
  · simp [WhisperContext.token_to_cstr, hs]
  · simp [WhisperContext.token_to_str, WhisperContext.token_to_cstr, hs, hv]
  · simp [WhisperContext.token_to_str, WhisperContext.token_to_cstr, hs, hv]
  · cases hm : m.tokenToStr t <;> simp_all [WhisperContext.token_to_cstr]

theorem token_lookup_error_cases_witness :
    WhisperContext.token_to_str ⟨demoModel⟩ 300 = .error .NullPointer ∧
    WhisperContext.token_to_str ⟨demoModel⟩ 65 = .ok [65] ∧
    WhisperContext.token_to_str ⟨badTokenModel⟩ 2 = .error .EncodingError :=
  ⟨((token_lookup_error_cases demoModel 300).1 (by rfl)).2,
   ((token_lookup_error_cases demoModel 65).2.1 [65] (by rfl)).2.1 (by rfl),
   ((token_lookup_error_cases badTokenModel 2).2.1 [255] (by rfl)).2.2 (by rfl)⟩

/-- C8: `model_type_readable` fails with `NullPointer` (LookupFailed) when the
native call returns null, and on success returns an `OwnedString` holding a
copy of the bytes the native buffer contained at call time (the Rust return
type is an owned `String` built by `.to_string()`, never a borrow). -/
theorem model_type_readable_owned_copy (m : NativeModel) :
    (m.modelTypeStr = none →
      WhisperContext.model_type_readable ⟨m⟩ = .error .NullPointer) ∧
    (∀ s, m.modelTypeStr = some s → isValidUtf8 s = true →
      WhisperContext.model_type_readable ⟨m⟩ = .ok ⟨s⟩) := by
  refine ⟨fun h => ?_, fun s hs hv => ?_⟩ <;>
    simp [WhisperContext.model_type_readable, *]

theorem model_type_readable_owned_copy_witness :
    WhisperContext.model_type_readable ⟨badTokenModel⟩ = .error .NullPointer ∧
    WhisperContext.model_type_readable ⟨demoModel⟩ = .ok ⟨[116, 105, 110, 121]⟩ :=
  ⟨(model_type_readable_owned_copy badTokenModel).1 rfl,
   (model_type_readable_owned_copy demoModel).2 [116, 105, 110, 121] rfl (by rfl)⟩

/-- C9: every property accessor of the catalogue is infallible — each is a
total function into a plain `Int`/`Bool`, not an `Except` — and deterministic:
two calls against the same loaded model return equal values. -/
theorem accessors_infallible_deterministic (c1 c2 : WhisperContext)
    (h : c1.ctx = c2.ctx) :
    c1.n_vocab = c2.n_vocab ∧ c1.n_text_ctx = c2.n_text_ctx ∧
    c1.n_audio_ctx = c2.n_audio_ctx ∧ c1.is_multilingual = c2.is_multilingual ∧
    c1.model_n_vocab = c2.model_n_vocab ∧ c1.model_n_audio_ctx = c2.model_n_audio_ctx ∧
    c1.model_n_audio_state = c2.model_n_audio_state ∧
    c1.model_n_audio_head = c2.model_n_audio_head ∧
    c1.model_n_audio_layer = c2.model_n_audio_layer ∧
    c1.model_n_text_ctx = c2.model_n_text_ctx ∧
    c1.model_n_text_state = c2.model_n_text_state ∧
    c1.model_n_text_head = c2.model_n_text_head ∧
    c1.model_n_text_layer = c2.model_n_text_layer ∧
    c1.model_n_mels = c2.model_n_mels ∧ c1.model_ftype = c2.model_ftype ∧
    c1.model_type = c2.model_type ∧ c1.token_eot = c2.token_eot ∧
    c1.token_sot = c2.token_sot ∧ c1.token_prev = c2.token_prev ∧
    c1.token_solm = c2.token_solm ∧ c1.token_not = c2.token_not ∧
    c1.token_beg = c2.token_beg ∧
    (∀ langId, c1.token_lang langId = c2.token_lang langId) := by
  cases c1
  cases c2
  cases h
  exact ⟨rfl, rfl, rfl, rfl, rfl, rfl, rfl, rfl, rfl, rfl, rfl, rfl, rfl, rfl, rfl, rfl,
    rfl, rfl, rfl, rfl, rfl, rfl, fun _ => rfl⟩

theorem accessors_infallible_deterministic_witness :
    (⟨demoModel⟩ : WhisperContext).n_vocab = (⟨demoModel⟩ : WhisperContext).n_vocab ∧
    (⟨demoModel⟩ : WhisperContext).n_text_ctx = (⟨demoModel⟩ : WhisperContext).n_text_ctx ∧
    (⟨demoModel⟩ : WhisperContext).n_audio_ctx = (⟨demoModel⟩ : WhisperContext).n_audio_ctx ∧
    (⟨demoModel⟩ : WhisperContext).is_multilingual = (⟨demoModel⟩ : WhisperContext).is_multilingual ∧
    (⟨demoModel⟩ : WhisperContext).model_n_vocab = (⟨demoModel⟩ : WhisperContext).model_n_vocab ∧
    (⟨demoModel⟩ : WhisperContext).model_n_audio_ctx = (⟨demoModel⟩ : WhisperContext).model_n_audio_ctx ∧
    (⟨demoModel⟩ : WhisperContext).model_n_audio_state = (⟨demoModel⟩ : WhisperContext).model_n_audio_state ∧
    (⟨demoModel⟩ : WhisperContext).model_n_audio_head = (⟨demoModel⟩ : WhisperContext).model_n_audio_head ∧
    (⟨demoModel⟩ : WhisperContext).model_n_audio_layer = (⟨demoModel⟩ : WhisperContext).model_n_audio_layer ∧
    (⟨demoModel⟩ : WhisperContext).model_n_text_ctx = (⟨demoModel⟩ : WhisperContext).model_n_text_ctx ∧
    (⟨demoModel⟩ : WhisperContext).model_n_text_state = (⟨demoModel⟩ : WhisperContext).model_n_text_state ∧
    (⟨demoModel⟩ : WhisperContext).model_n_text_head = (⟨demoModel⟩ : WhisperContext).model_n_text_head ∧
    (⟨demoModel⟩ : WhisperContext).model_n_text_layer = (⟨demoModel⟩ : WhisperContext).model_n_text_layer ∧
    (⟨demoModel⟩ : WhisperContext).model_n_mels = (⟨demoModel⟩ : WhisperContext).model_n_mels ∧
    (⟨demoModel⟩ : WhisperContext).model_ftype = (⟨demoModel⟩ : WhisperContext).model_ftype ∧
    (⟨demoModel⟩ : WhisperContext).model_type = (⟨demoModel⟩ : WhisperContext).model_type ∧
    (⟨demoModel⟩ : WhisperContext).token_eot = (⟨demoModel⟩ : WhisperContext).token_eot ∧
    (⟨demoModel⟩ : WhisperContext).token_sot = (⟨demoModel⟩ : WhisperContext).token_sot ∧
    (⟨demoModel⟩ : WhisperContext).token_prev = (⟨demoModel⟩ : WhisperContext).token_prev ∧
    (⟨demoModel⟩ : WhisperContext).token_solm = (⟨demoModel⟩ : WhisperContext).token_solm ∧
    (⟨demoModel⟩ : WhisperContext).token_not = (⟨demoModel⟩ : WhisperContext).token_not ∧
    (⟨demoModel⟩ : WhisperContext).token_beg = (⟨demoModel⟩ : WhisperContext).token_beg ∧
    (∀ langId, (⟨demoModel⟩ : WhisperContext).token_lang langId =
      (⟨demoModel⟩ : WhisperContext).token_lang langId) :=
  accessors_infallible_deterministic ⟨demoModel⟩ ⟨demoModel⟩ rfl

/-- If every token of `toks` has a native string, all of them valid UTF-8, and
the native strings concatenate to `text`, then the wrapper-level join of
`token_to_str` over `toks` succeeds and reproduces `text`. -/
theorem joinTokenStrs_of_nativeJoin (self : WhisperContext) :
    ∀ (toks : List Int) (text : List UInt8),
      nativeJoin self.ctx toks = some text →
      (∀ t ∈ toks, ∀ s, self.ctx.tokenToStr t = some s → isValidUtf8 s = true) →
      joinTokenStrs self toks = .ok text := by
  intro toks
  induction toks with
  | nil =>
    intro text hjoin _
    simp only [nativeJoin, Option.some.injEq] at hjoin
    rw [← hjoin]
    rfl
  | cons t ts ih =>
    intro text hjoin hvalid
    cases hts : self.ctx.tokenToStr t with
    | none => simp [nativeJoin, hts] at hjoin
    | some s =>
      cases hrest : nativeJoin self.ctx ts with
      | none => simp [nativeJoin, hts, hrest] at hjoin
      | some rest =>
        simp only [nativeJoin, hts, hrest, Option.some.injEq] at hjoin
        have hv : isValidUtf8 s = true := hvalid t (List.mem_cons_self t ts) s hts
        have hstr : WhisperContext.token_to_str self t = .ok s := by
          simp [WhisperContext.token_to_str, WhisperContext.token_to_cstr, hts, hv]
        have hrec : joinTokenStrs self ts = .ok rest :=
          ih rest hrest fun t' ht' s' hs' => hvalid t' (List.mem_cons_of_mem t ht') s' hs'
        simp [joinTokenStrs, hstr, hrec, hjoin]

/-- C2: for text with no null bytes, if the native vocabulary has no gaps over
the produced tokens (each has a valid-UTF-8 string and those strings
concatenate back to the text — the native round-trip contract), then
`tokenize` followed by joining `token_to_str` over each resulting token, in
order, reproduces the original text exactly. -/
theorem tokenize_token_to_str_round_trip
    (self : WhisperContext) (text : List UInt8) (maxTokens : Nat) (toks : List Int)
    (htok : self.tokenize text maxTokens = .ok toks)
    (hjoin : nativeJoin self.ctx toks = some text)
    (hvalid : ∀ t ∈ toks, ∀ s, self.ctx.tokenToStr t = some s → isValidUtf8 s = true) :
    self.tokenize text maxTokens = .ok toks ∧ joinTokenStrs self toks = .ok text :=
  ⟨htok, joinTokenStrs_of_nativeJoin self toks text hjoin hvalid⟩

theorem tokenize_token_to_str_round_trip_witness :
    WhisperContext.tokenize ⟨demoModel⟩ [65, 66] 4 = .ok [65, 66] ∧
    joinTokenStrs ⟨demoModel⟩ [65, 66] = .ok [65, 66] := by
  refine tokenize_token_to_str_round_trip ⟨demoModel⟩ [65, 66] 4 [65, 66]
    (by rfl) (by rfl) ?_
  intro t ht s hs
  simp only [List.mem_cons, List.not_mem_nil, or_false] at ht
  rcases ht with rfl | rfl
  · rw [show demoModel.tokenToStr 65 = some [65] from rfl] at hs
    obtain rfl := Option.some.inj hs
    rfl
  · rw [show demoModel.tokenToStr 66 = some [66] from rfl] at hs
    obtain rfl := Option.some.inj hs
    rfl

/-- C1: in the spec-modelled lifetime discipline (whisper_state.rs is not
under src/), every reachable heap keeps each Run State Handle's originating
Context Handle alive, and destroying a context while one of its derived run
states is still live is not a constructible transition: the wrong destruction
order is rejected at construction time, not left to caller discipline. -/
theorem run_state_valid_only_while_ctx_alive (h : HandleHeap)
    (hr : ReachableHeap h) :
    (∀ s c, (s, c) ∈ h.liveStates → c ∈ h.liveCtxs) ∧
    (∀ s c, (s, c) ∈ h.liveStates → ∀ h', ¬ HandleStep h (.destroyCtx c) h') := by
  have inv : ∀ s c, (s, c) ∈ h.liveStates → c ∈ h.liveCtxs := by
    induction hr with
    | init => intro s c hc; simp at hc
    | step hr' hstep ih =>
      intro s c hc
      cases hstep with
      | createCtx hfresh =>
        exact List.mem_cons_of_mem _ (ih s c hc)
      | createState hcLive hfresh =>
        rcases List.mem_cons.mp hc with heq | hmem
        · obtain ⟨rfl, rfl⟩ := Prod.mk.injEq .. ▸ heq
          exact hcLive
        · exact ih s c hmem
      | destroyState hs =>
        exact ih s c (List.mem_of_mem_filter hc)
      | destroyCtx hcLive hnostate =>
        exact List.mem_filter.mpr ⟨ih s c hc, by simpa using hnostate (s, c) hc⟩
  refine ⟨inv, fun s c hc h' hstep => ?_⟩
  cases hstep with
  | destroyCtx hcLive hnostate => exact hnostate (s, c) hc rfl

theorem run_state_valid_only_while_ctx_alive_witness :
    (1 : Nat) ∈ demoHeap.liveCtxs ∧
    ∀ h', ¬ HandleStep demoHeap (.destroyCtx 1) h' := by
  have hstep1 : HandleStep ⟨[], []⟩ (.createCtx 1) ⟨[1], []⟩ :=
    HandleStep.createCtx (by simp)
  have hstep2 : HandleStep ⟨[1], []⟩ (.createState 2 1) demoHeap :=
    HandleStep.createState (by simp) (by simp)
  have hr : ReachableHeap demoHeap :=
    ReachableHeap.step (ReachableHeap.step ReachableHeap.init hstep1) hstep2
  have hmem : ((2, 1) : Nat × Nat) ∈ demoHeap.liveStates := by simp [demoHeap]
  exact ⟨(run_state_valid_only_while_ctx_alive demoHeap hr).1 2 1 hmem,
    fun h' => (run_state_valid_only_while_ctx_alive demoHeap hr).2 2 1 hmem h'⟩
